import Mathlib

/-!
# Verification of the `j5` hardware-abstraction layer and its snippet-extraction tool

This file gives a shallow embedding, in Lean 4, of the parts of the `j5`
repository that its specification talks about:

* `tools/extract_snippets.py` — the markdown code-snippet extractor
  (`PythonMarkdownFormat`, `SnippetWriter`, `extract`), embedded directly
  from the source;
* the core component/backend/environment model (`Environment.get_backend`,
  `Component` capability checking, the demo board and its LED components).
  The implementation modules for the core are not present in this source
  tree (only `j5/components/__init__.py` and the demo-board tests are), so
  those definitions are modelled from the specification, with the test
  file `tests/boards/j5/test_demo.py` taken as authoritative where it
  pins down behaviour.

Python strings are embedded as Lean `String`; `str.startswith` and the
`in` substring test are embedded as prefix/infix tests on the underlying
character lists, which agree with Python's semantics on Unicode strings.
-/

namespace J5

/-- Embedding of Python `s.startswith(pat)`: `pat`'s characters are a prefix
of `s`'s characters. -/
def strStartsWith (s pat : String) : Bool :=
  pat.data.isPrefixOf s.data

/-- `charsSub pat l` holds when `pat` occurs as a contiguous run inside `l`. -/
def charsSub (pat : List Char) : List Char → Bool
  | [] => pat.isEmpty
  | c :: rest => pat.isPrefixOf (c :: rest) || charsSub pat rest

/-- Embedding of Python `pat in s`: `pat` occurs as a substring of `s`. -/
def strContainsSub (s pat : String) : Bool :=
  charsSub pat.data s.data

/-- Concatenation of a list of lines, in order (each line carries its own
terminating newline, exactly as Python's file iteration yields it). -/
def concatLines (ls : List String) : String :=
  ls.foldr (fun a b => a ++ b) ""

/-! ## `tools/extract_snippets.py`, embedded from the source -/

/-- `ignored_flake8_rules = {"D100"}` from `tools/extract_snippets.py`. -/
def ignored_flake8_rules : List String := ["D100"]

/-- The header `SnippetWriter.write` prepends:
`f"# noqa: {','.join(ignored_flake8_rules)}\n"`. -/
def noqaHeader : String :=
  "# noqa: " ++ String.intercalate "," ignored_flake8_rules ++ "\n"

/-- `PythonMarkdownFormat`: a started code block, remembering its opening
line (`self.start_line`). -/
structure PythonMarkdownFormat where
  start_line : String
deriving DecidableEq, Repr

/-- `PythonMarkdownFormat.is_start`: the line begins a Python code block. -/
def PythonMarkdownFormat.is_start (line : String) : Bool :=
  strStartsWith line "```python"

/-- `PythonMarkdownFormat.attempt_start`: start a block if the line opens one. -/
def PythonMarkdownFormat.attempt_start (line : String) : Option PythonMarkdownFormat :=
  if is_start line then some ⟨line⟩ else none

/-- `PythonMarkdownFormat.is_end`: the line closes the current code block. -/
def PythonMarkdownFormat.is_end (_f : PythonMarkdownFormat) (line : String) : Bool :=
  strStartsWith line "```"

/-- `PythonMarkdownFormat.is_unchecked`: the opening line contains `"unchecked"`. -/
def PythonMarkdownFormat.is_unchecked (f : PythonMarkdownFormat) : Bool :=
  strContainsSub f.start_line "unchecked"

/-- `SnippetWriter`: sequential file numbering plus the files written so far,
as (file number, file contents) pairs. -/
structure SnippetWriter where
  next_num : Nat
  written : List (Nat × String)
deriving DecidableEq, Repr

/-- `SnippetWriter.write`: prepend the noqa header, write the next numbered
file, and advance the counter. -/
def SnippetWriter.write (w : SnippetWriter) (contents : String) : SnippetWriter :=
  { next_num := w.next_num + 1
    written := w.written ++ [(w.next_num, noqaHeader ++ contents)] }

/-- The loop body of `extract`: the state is `none` outside a code block and
`some (fmt, current_code_block)` inside one (the source keeps the two
variables `current_code_block` / `current_block_format` in lock-step; the
`FORMATS` list has the single entry `PythonMarkdownFormat`). -/
def extract.go : List String → Option (PythonMarkdownFormat × String) → SnippetWriter → SnippetWriter
  | [], _, w => w
  | line :: rest, some (fmt, block), w =>
      if fmt.is_end line then
        extract.go rest none (if fmt.is_unchecked then w else w.write block)
      else
        extract.go rest (some (fmt, block ++ line)) w
  | line :: rest, none, w =>
      match PythonMarkdownFormat.attempt_start line with
      | some fmt => extract.go rest (some (fmt, "")) w
      | none => extract.go rest none w

/-- `extract(input_path, snippet_writer)`: scan the input lines and send every
completed, checked code block to the writer. -/
def extract (input : List String) (w : SnippetWriter) : SnippetWriter :=
  extract.go input none w

/-- `main` runs `extract` with a fresh writer (`next_num = 0`, nothing written). -/
def runExtract (input : List String) : SnippetWriter :=
  extract input ⟨0, []⟩

/-! ## Claim-side description of markdown code blocks

These definitions follow the words of the specification's claims: a snippet
is the run of lines strictly between a line starting with ```` ```python ````
and the next subsequent line starting with ```` ``` ````; a block whose
opening line contains `"unchecked"` is skipped. They are compared with the
source embedding above by the refinement theorems below. -/

/-- The code blocks of an input, per the claims: each is (opening line, the
lines strictly between the opening line and the next line starting with
```` ``` ````). An opening line with no subsequent closing line yields no
block. -/
def mdBlocks : List String → List (String × List String)
  | [] => []
  | l :: ls =>
    if strStartsWith l "```python" then
      if hne : (ls.dropWhile (fun x => !strStartsWith x "```")).isEmpty then []
      else
        (l, ls.takeWhile (fun x => !strStartsWith x "```")) ::
          mdBlocks (ls.dropWhile (fun x => !strStartsWith x "```")).tail
    else
      mdBlocks ls
termination_by ls => ls.length
decreasing_by
  · have h1 : (ls.dropWhile (fun x => !strStartsWith x "```")).length ≤ ls.length :=
      (List.dropWhile_sublist _).length_le
    have h2 : (ls.dropWhile (fun x => !strStartsWith x "```")).length ≠ 0 := by
      intro hz
      rw [List.length_eq_zero] at hz
      rw [hz] at hne
      simp at hne
    simp only [List.length_tail, List.length_cons]
    omega
  · simp

/-- Whether a block is checked (its opening line does not contain
`"unchecked"`). -/
def blockChecked (b : String × List String) : Bool :=
  !strContainsSub b.1 "unchecked"

/-- The snippet contents the claims predict: the interiors of the checked
blocks, each concatenated in file order. -/
def checkedSnippets (input : List String) : List String :=
  ((mdBlocks input).filter blockChecked).map (fun b => concatLines b.2)

/-! ## The j5 core: interfaces, components, backends, environments

`j5/components/__init__.py` (in this source tree) pairs each component kind
with its interface: `BatterySensor`/`BatterySensorInterface`, `Button`/
`ButtonInterface`, `GPIOPin`/`GPIOPinInterface`, `LED`/`LEDInterface`,
`Motor`/`MotorInterface`, `Piezo`/`PiezoInterface`, `PowerOutput`/
`PowerOutputInterface`, `Servo`/`ServoInterface`. The implementation
modules (`component.py`, `led.py`, `j5/backends`, `j5/boards`) are not in
this source tree, so their behaviour is modelled from the specification. -/

/-- The interfaces exported by `j5/components/__init__.py`. -/
inductive Interface where
  | BatterySensorInterface
  | ButtonInterface
  | GPIOPinInterface
  | LEDInterface
  | MotorInterface
  | PiezoInterface
  | PowerOutputInterface
  | ServoInterface
deriving DecidableEq, Repr

/-- Printable name of an interface, as it would appear in an error message. -/
def Interface.name : Interface → String
  | .BatterySensorInterface => "BatterySensorInterface"
  | .ButtonInterface => "ButtonInterface"
  | .GPIOPinInterface => "GPIOPinInterface"
  | .LEDInterface => "LEDInterface"
  | .MotorInterface => "MotorInterface"
  | .PiezoInterface => "PiezoInterface"
  | .PowerOutputInterface => "PowerOutputInterface"
  | .ServoInterface => "ServoInterface"

/-- The component kinds exported by `j5/components/__init__.py`. -/
inductive ComponentKind where
  | BatterySensor
  | Button
  | GPIOPin
  | LED
  | Motor
  | Piezo
  | PowerOutput
  | Servo
deriving DecidableEq, Repr

/-- Printable name of a component kind. -/
def ComponentKind.name : ComponentKind → String
  | .BatterySensor => "BatterySensor"
  | .Button => "Button"
  | .GPIOPin => "GPIOPin"
  | .LED => "LED"
  | .Motor => "Motor"
  | .Piezo => "Piezo"
  | .PowerOutput => "PowerOutput"
  | .Servo => "Servo"

/-- The interface a component kind requires of its backend, following the
pairing in `j5/components/__init__.py`. -/
def ComponentKind.requiredInterface : ComponentKind → Interface
  | .BatterySensor => .BatterySensorInterface
  | .Button => .ButtonInterface
  | .GPIOPin => .GPIOPinInterface
  | .LED => .LEDInterface
  | .Motor => .MotorInterface
  | .Piezo => .PiezoInterface
  | .PowerOutput => .PowerOutputInterface
  | .Servo => .ServoInterface

/-- The error taxonomy of the core, from the specification: a registry
lookup failure (`LookupError`) carries the environment's name; a capability
failure (`NotSupportedByComponentError`, the spec's CapabilityError,
exported by `j5/components/__init__.py`) names the component kind and the
missing interface. -/
inductive J5Error where
  | lookupError (environmentName : String)
  | capabilityError (componentKind : String) (missingInterface : String)
deriving DecidableEq, Repr

/-- A backend class, abstracted to the set of interfaces it implements
(a Python backend class implements an interface by subclassing it, as
`MockDemoBoardBackend(LEDInterface, Backend)` does in the tests). -/
structure Backend where
  implements : List Interface
deriving DecidableEq, Repr

/-- A constructed component handle: its kind and its identifier within the
owning board (the board/backend binding is kept by the owning board). -/
structure Component where
  kind : ComponentKind
  identifier : Nat
deriving DecidableEq, Repr

/-- Modelled from the spec: `j5/components/component.py` is not in this
source tree. A Component is constructed from (kind, backend, identifier)
only after verifying that the backend implements the interface the kind
requires; otherwise construction fails with a capability error naming the
component kind and the missing interface. -/
def Component.construct (kind : ComponentKind) (backend : Backend) (identifier : Nat) :
    Except J5Error Component :=
  if kind.requiredInterface ∈ backend.implements then
    .ok ⟨kind, identifier⟩
  else
    .error (.capabilityError kind.name kind.requiredInterface.name)

/-- An environment: a name and a board-type-to-backend-class mapping.
Modelled from the spec: `j5/backends/__init__.py` is not in this source
tree. `β` is the type of board types, `κ` the type of backend classes. -/
structure Environment (β κ : Type) where
  name : String
  board_backend_mapping : List (β × κ)
deriving DecidableEq, Repr

/-- First entry registered for a board type, if any. -/
def findEntry [DecidableEq β] (board : β) : List (β × κ) → Option κ
  | [] => none
  | (b, k) :: rest => if b = board then some k else findEntry board rest

/-- Modelled from the spec: register a backend class under a board type;
fails (returns `none`) if a backend is already registered for that board
type in this environment (at most one backend per board type). -/
def Environment.register_backend [DecidableEq β] (env : Environment β κ)
    (board : β) (backend : κ) : Option (Environment β κ) :=
  match findEntry board env.board_backend_mapping with
  | some _ => none
  | none =>
      some { env with board_backend_mapping := env.board_backend_mapping ++ [(board, backend)] }

/-- Modelled from the spec: `Environment.get_backend(BoardType)` returns the
registered backend class, and fails with a LookupError when no backend is
registered for the board type. -/
def Environment.get_backend [DecidableEq β] (env : Environment β κ) (board : β) :
    Except J5Error κ :=
  match findEntry board env.board_backend_mapping with
  | some backend => .ok backend
  | none => .error (.lookupError env.name)

/-! ## The demo board and its LED components

`j5/boards/j5/demo.py` is not in this source tree; the demo board is
modelled from the specification, with `tests/boards/j5/test_demo.py`
authoritative where it pins behaviour down: a DemoBoard exposes exactly 3
LED components, and `DemoBoard.discover` returns 3 boards even against the
test's mock backend, whose own `discover()` returns the empty list. -/

/-- The board types the tests exercise. -/
inductive BoardT where
  | DemoBoard
deriving DecidableEq, Repr

/-- A constructed demo board: its serial, the backend class resolved from
the environment, and its LED components. -/
structure DemoBoardData where
  serial : String
  backend : Backend
  leds : List Component
deriving DecidableEq, Repr

/-- Modelled from the spec: `DemoBoard(serial, environment)` resolves
`environment.get_backend(DemoBoard)` and then builds the board's fixed
manifest of 3 LED components with identifiers 0, 1, 2, each bound to the
resolved backend after the capability check. -/
def DemoBoard.construct (serial : String) (env : Environment BoardT Backend) :
    Except J5Error DemoBoardData := do
  let backend ← env.get_backend BoardT.DemoBoard
  let leds ← (List.range 3).mapM (fun n => Component.construct ComponentKind.LED backend n)
  .ok { serial := serial, backend := backend, leds := leds }

/-- Modelled from the spec and pinned by the repository's own test
`test_demo_board_detection`: `DemoBoard.discover` builds the fixed list of
3 demo boards with serials "0", "1", "2" in the backend's environment; it
does not consult the backend's own `discover()` (the test's mock backend
reports no boards, yet the test asserts 3 discovered boards). -/
def DemoBoard.discover (env : Environment BoardT Backend) :
    Except J5Error (List DemoBoardData) :=
  (List.range 3).mapM (fun n => DemoBoard.construct (toString n) env)

/-- From `tests/boards/j5/test_demo.py`: the mock backend class implements
`LEDInterface` (it subclasses `LEDInterface, Backend`). -/
def MockDemoBoardBackend : Backend :=
  { implements := [Interface.LEDInterface] }

/-- From `tests/boards/j5/test_demo.py`: `MockEnvironment` with the mock
backend registered for the demo board (registration happens at class
definition time in the source). -/
def MockEnvironment : Environment BoardT Backend :=
  { name := "MockEnvironment"
    board_backend_mapping := [(BoardT.DemoBoard, MockDemoBoardBackend)] }

/-- From `tests/boards/j5/test_demo.py`: `MockDemoBoardBackend.discover`
returns the empty list (`return []`). -/
def MockDemoBoardBackend.discover : List DemoBoardData := []

/-- From `tests/boards/j5/test_demo.py`: `set_led_state` is `pass` — the
mock holds no state, so its (empty) state is returned unchanged. -/
def MockDemoBoardBackend.set_led_state (s : Unit) (_board : String) (_identifier : Nat)
    (_state : Bool) : Unit := s

/-- From `tests/boards/j5/test_demo.py`: `get_led_state` returns `True`
unconditionally. -/
def MockDemoBoardBackend.get_led_state (_s : Unit) (_board : String) (_identifier : Nat) :
    Bool := true

/-- An implementation of the LED interface over a backend state type `σ`:
the two methods `set_led_state(board, identifier, state)` and
`get_led_state(board, identifier)`. -/
structure LEDInterfaceImpl (σ : Type) where
  set_led_state : σ → String → Nat → Bool → σ
  get_led_state : σ → String → Nat → Bool

/-- The mock backend's LED interface implementation, from the test file. -/
def mockLEDImpl : LEDInterfaceImpl Unit :=
  { set_led_state := MockDemoBoardBackend.set_led_state
    get_led_state := MockDemoBoardBackend.get_led_state }

/-- Modelled from the spec: `j5/components/led.py` is not in this source
tree. The LED component's state setter is a pure forwarding call to the
backend's `set_led_state`. -/
def LED.set_state (impl : LEDInterfaceImpl σ) (s : σ) (board : String) (identifier : Nat)
    (v : Bool) : σ :=
  impl.set_led_state s board identifier v

/-- Modelled from the spec: the LED component's state getter forwards to the
backend's `get_led_state` and returns its result unchanged. -/
def LED.get_state (impl : LEDInterfaceImpl σ) (s : σ) (board : String) (identifier : Nat) :
    Bool :=
  impl.get_led_state s board identifier

/-- Folding a list of snippet contents into a writer, one `write` per item. -/
def writeAll (w : SnippetWriter) (cs : List String) : SnippetWriter :=
  cs.foldl SnippetWriter.write w

instance {ε α : Type} [DecidableEq ε] [DecidableEq α] : DecidableEq (Except ε α) := by
  intro a b
  cases a <;> cases b
  case error.error x y =>
    exact if h : x = y then .isTrue (by rw [h]) else .isFalse (by simp [h])
  case error.ok x y => exact .isFalse (by simp)
  case ok.error x y => exact .isFalse (by simp)
  case ok.ok x y =>
    exact if h : x = y then .isTrue (by rw [h]) else .isFalse (by simp [h])

/-! ## Helper lemmas -/

theorem findEntry_append_of_none [DecidableEq β] (board : β) (l l' : List (β × κ))
    (h : findEntry board l = none) :
    findEntry board (l ++ l') = findEntry board l' := by
  induction l with
  | nil => rfl
  | cons p rest ih =>
      obtain ⟨b, k⟩ := p
      by_cases hb : b = board
      · simp [findEntry, hb] at h
      · simp only [findEntry, hb, if_false, List.cons_append] at h ⊢
        exact ih h

/-! ## Claims C1–C8: the j5 core -/

/-- C1: constructing a Component against a Backend that does not implement
the required Interface fails with a capability error naming the component
kind and the missing interface; it never succeeds. -/
theorem component_construct_capability_error (kind : ComponentKind) (backend : Backend)
    (identifier : Nat) (h : kind.requiredInterface ∉ backend.implements) :
    Component.construct kind backend identifier =
      .error (.capabilityError kind.name kind.requiredInterface.name) := by
  simp [Component.construct, h]

theorem component_construct_capability_error_witness :
    ComponentKind.Motor.requiredInterface ∉ MockDemoBoardBackend.implements ∧
      Component.construct ComponentKind.Motor MockDemoBoardBackend 0 =
        .error (.capabilityError ComponentKind.Motor.name
          ComponentKind.Motor.requiredInterface.name) :=
  ⟨by decide, component_construct_capability_error ComponentKind.Motor MockDemoBoardBackend 0
    (by decide)⟩

/-- C2: after a successful registration of a backend class for a board type,
`get_backend` on that board type returns exactly that backend class. -/
theorem get_backend_after_register {β κ : Type} [DecidableEq β]
    (env : Environment β κ) (board : β) (backend : κ) (env' : Environment β κ)
    (h : env.register_backend board backend = some env') :
    env'.get_backend board = .ok backend := by
  unfold Environment.register_backend at h
  cases hf : findEntry board env.board_backend_mapping with
  | some k => rw [hf] at h; simp at h
  | none =>
      rw [hf] at h
      simp only [Option.some.injEq] at h
      subst h
      unfold Environment.get_backend
      rw [findEntry_append_of_none board _ _ hf]
      simp [findEntry]

theorem get_backend_after_register_witness :
    (Environment.mk "TestEnv" ([] : List (BoardT × Backend))).register_backend
        BoardT.DemoBoard MockDemoBoardBackend =
      some ⟨"TestEnv", [(BoardT.DemoBoard, MockDemoBoardBackend)]⟩ ∧
    (Environment.mk "TestEnv"
        [(BoardT.DemoBoard, MockDemoBoardBackend)]).get_backend BoardT.DemoBoard =
      .ok MockDemoBoardBackend :=
  ⟨by decide, get_backend_after_register (Environment.mk "TestEnv" [])
    BoardT.DemoBoard MockDemoBoardBackend (Environment.mk "TestEnv"
      [(BoardT.DemoBoard, MockDemoBoardBackend)]) (by decide)⟩

/-- C3: `get_backend` on a board type with no registered backend fails with
a LookupError, surfaced immediately (as the returned error value). -/
theorem get_backend_unregistered_lookup_error {β κ : Type} [DecidableEq β]
    (env : Environment β κ) (board : β)
    (h : findEntry board env.board_backend_mapping = none) :
    env.get_backend board = .error (.lookupError env.name) := by
  simp [Environment.get_backend, h]

theorem get_backend_unregistered_lookup_error_witness :
    findEntry BoardT.DemoBoard
        (Environment.mk "EmptyEnv" ([] : List (BoardT × Backend))).board_backend_mapping =
      none ∧
    (Environment.mk "EmptyEnv" ([] : List (BoardT × Backend))).get_backend BoardT.DemoBoard =
      .error (.lookupError "EmptyEnv") :=
  ⟨by decide, get_backend_unregistered_lookup_error _ BoardT.DemoBoard (by decide)⟩

/-- C5: every successfully constructed DemoBoard exposes exactly 3 LED
components, whatever serial and environment it was constructed with. -/
theorem demoBoard_has_three_leds (serial : String) (env : Environment BoardT Backend)
    (b : DemoBoardData) (h : DemoBoard.construct serial env = .ok b) :
    b.leds.length = 3 := by
  cases hk : env.get_backend BoardT.DemoBoard with
  | error e => simp [DemoBoard.construct, hk, bind, Except.bind] at h
  | ok k =>
      by_cases hm : Interface.LEDInterface ∈ k.implements <;>
        simp [DemoBoard.construct, hk, Component.construct, ComponentKind.requiredInterface,
          hm, show List.range 3 = [0, 1, 2] from rfl, List.mapM, List.mapM.loop,
          bind, Except.bind, pure, Except.pure] at h
      rw [← h]
      rfl

theorem demoBoard_has_three_leds_witness :
    DemoBoard.construct "00000" MockEnvironment =
      .ok ⟨"00000", MockDemoBoardBackend,
        [⟨ComponentKind.LED, 0⟩, ⟨ComponentKind.LED, 1⟩, ⟨ComponentKind.LED, 2⟩]⟩ ∧
    (⟨"00000", MockDemoBoardBackend,
        [⟨ComponentKind.LED, 0⟩, ⟨ComponentKind.LED, 1⟩,
          ⟨ComponentKind.LED, 2⟩]⟩ : DemoBoardData).leds.length = 3 :=
  ⟨by decide, demoBoard_has_three_leds "00000" MockEnvironment _ (by decide)⟩

/-- C8: `DemoBoard(serial, environment)` resolves its backend through
`environment.get_backend` on its own board type, and the constructed
board's serial equals the given serial unchanged. -/
theorem demoBoard_serial_preserved (serial : String) (env : Environment BoardT Backend)
    (b : DemoBoardData) (h : DemoBoard.construct serial env = .ok b) :
    b.serial = serial ∧ env.get_backend BoardT.DemoBoard = .ok b.backend := by
  cases hk : env.get_backend BoardT.DemoBoard with
  | error e => simp [DemoBoard.construct, hk, bind, Except.bind] at h
  | ok k =>
      by_cases hm : Interface.LEDInterface ∈ k.implements <;>
        simp [DemoBoard.construct, hk, Component.construct, ComponentKind.requiredInterface,
          hm, show List.range 3 = [0, 1, 2] from rfl, List.mapM, List.mapM.loop,
          bind, Except.bind, pure, Except.pure] at h
      rw [← h]
      exact ⟨rfl, rfl⟩

theorem demoBoard_serial_preserved_witness :
    DemoBoard.construct "00000" MockEnvironment =
      .ok ⟨"00000", MockDemoBoardBackend,
        [⟨ComponentKind.LED, 0⟩, ⟨ComponentKind.LED, 1⟩, ⟨ComponentKind.LED, 2⟩]⟩ ∧
    ((⟨"00000", MockDemoBoardBackend,
        [⟨ComponentKind.LED, 0⟩, ⟨ComponentKind.LED, 1⟩,
          ⟨ComponentKind.LED, 2⟩]⟩ : DemoBoardData).serial = "00000" ∧
      MockEnvironment.get_backend BoardT.DemoBoard = .ok MockDemoBoardBackend) :=
  ⟨by decide, demoBoard_serial_preserved "00000" MockEnvironment _ (by decide)⟩

/-- C4, counterexample to the claim as stated: against the test file's own
mock backend, `DemoBoard.discover` returns 3 boards while the backend's
`discover()` reports 0 hardware units, so the returned sequence's length
does not equal the number of units the backend reports. -/
theorem discover_length_counterexample :
    Except.map List.length (DemoBoard.discover MockEnvironment) = .ok 3 ∧
      MockDemoBoardBackend.discover.length = 0 ∧ (3 : Nat) ≠ 0 :=
  ⟨by decide, by decide, by decide⟩

/-- C4 as amended: `DemoBoard.discover` returns 3 fully constructed boards
regardless of how many units the backend's own `discover()` reports, and
every returned board carries the static 3-LED manifest of the demo board
type. -/
theorem discover_returns_three_boards (env : Environment BoardT Backend)
    (boards : List DemoBoardData) (h : DemoBoard.discover env = .ok boards) :
    boards.length = 3 ∧ ∀ b ∈ boards, b.leds.length = 3 := by
  cases hk : env.get_backend BoardT.DemoBoard with
  | error e =>
      simp [DemoBoard.discover, DemoBoard.construct, hk,
        show List.range 3 = [0, 1, 2] from rfl, List.mapM, List.mapM.loop,
        bind, Except.bind, pure, Except.pure] at h
  | ok k =>
      by_cases hm : Interface.LEDInterface ∈ k.implements <;>
        simp [DemoBoard.discover, DemoBoard.construct, hk, Component.construct,
          ComponentKind.requiredInterface, hm, show List.range 3 = [0, 1, 2] from rfl,
          List.mapM, List.mapM.loop, bind, Except.bind, pure, Except.pure] at h
      rw [← h]
      refine ⟨rfl, ?_⟩
      intro b hb
      simp at hb
      rcases hb with hb | hb | hb <;> rw [hb] <;> rfl

theorem discover_returns_three_boards_witness :
    DemoBoard.discover MockEnvironment =
      .ok [⟨"0", MockDemoBoardBackend,
            [⟨ComponentKind.LED, 0⟩, ⟨ComponentKind.LED, 1⟩, ⟨ComponentKind.LED, 2⟩]⟩,
          ⟨"1", MockDemoBoardBackend,
            [⟨ComponentKind.LED, 0⟩, ⟨ComponentKind.LED, 1⟩, ⟨ComponentKind.LED, 2⟩]⟩,
          ⟨"2", MockDemoBoardBackend,
            [⟨ComponentKind.LED, 0⟩, ⟨ComponentKind.LED, 1⟩, ⟨ComponentKind.LED, 2⟩]⟩] ∧
    ([⟨"0", MockDemoBoardBackend,
            [⟨ComponentKind.LED, 0⟩, ⟨ComponentKind.LED, 1⟩, ⟨ComponentKind.LED, 2⟩]⟩,
          ⟨"1", MockDemoBoardBackend,
            [⟨ComponentKind.LED, 0⟩, ⟨ComponentKind.LED, 1⟩, ⟨ComponentKind.LED, 2⟩]⟩,
          ⟨"2", MockDemoBoardBackend,
            [⟨ComponentKind.LED, 0⟩, ⟨ComponentKind.LED, 1⟩,
              ⟨ComponentKind.LED, 2⟩]⟩] : List DemoBoardData).length = 3 ∧
      ∀ b ∈ ([⟨"0", MockDemoBoardBackend,
            [⟨ComponentKind.LED, 0⟩, ⟨ComponentKind.LED, 1⟩, ⟨ComponentKind.LED, 2⟩]⟩,
          ⟨"1", MockDemoBoardBackend,
            [⟨ComponentKind.LED, 0⟩, ⟨ComponentKind.LED, 1⟩, ⟨ComponentKind.LED, 2⟩]⟩,
          ⟨"2", MockDemoBoardBackend,
            [⟨ComponentKind.LED, 0⟩, ⟨ComponentKind.LED, 1⟩,
              ⟨ComponentKind.LED, 2⟩]⟩] : List DemoBoardData), b.leds.length = 3 :=
  ⟨by decide, discover_returns_three_boards MockEnvironment _ (by decide)⟩

/-- C7: two consecutive discovery calls against the unchanged mock
environment yield boards with identical serials and identical component
counts (discovery is deterministic in this model: there is no hidden
state for it to depend on). -/
theorem discover_deterministic (env : Environment BoardT Backend)
    (r1 r2 : List DemoBoardData)
    (h1 : DemoBoard.discover env = .ok r1) (h2 : DemoBoard.discover env = .ok r2) :
    r1.map DemoBoardData.serial = r2.map DemoBoardData.serial ∧
      r1.map (fun b => b.leds.length) = r2.map (fun b => b.leds.length) := by
  rw [h1] at h2
  simp only [Except.ok.injEq] at h2
  subst h2
  exact ⟨rfl, rfl⟩

theorem discover_deterministic_witness :
    DemoBoard.discover MockEnvironment =
      .ok [⟨"0", MockDemoBoardBackend,
            [⟨ComponentKind.LED, 0⟩, ⟨ComponentKind.LED, 1⟩, ⟨ComponentKind.LED, 2⟩]⟩,
          ⟨"1", MockDemoBoardBackend,
            [⟨ComponentKind.LED, 0⟩, ⟨ComponentKind.LED, 1⟩, ⟨ComponentKind.LED, 2⟩]⟩,
          ⟨"2", MockDemoBoardBackend,
            [⟨ComponentKind.LED, 0⟩, ⟨ComponentKind.LED, 1⟩, ⟨ComponentKind.LED, 2⟩]⟩] ∧
    (List.map DemoBoardData.serial
          [⟨"0", MockDemoBoardBackend,
            [⟨ComponentKind.LED, 0⟩, ⟨ComponentKind.LED, 1⟩, ⟨ComponentKind.LED, 2⟩]⟩,
          ⟨"1", MockDemoBoardBackend,
            [⟨ComponentKind.LED, 0⟩, ⟨ComponentKind.LED, 1⟩, ⟨ComponentKind.LED, 2⟩]⟩,
          ⟨"2", MockDemoBoardBackend,
            [⟨ComponentKind.LED, 0⟩, ⟨ComponentKind.LED, 1⟩, ⟨ComponentKind.LED, 2⟩]⟩] =
        List.map DemoBoardData.serial
          [⟨"0", MockDemoBoardBackend,
            [⟨ComponentKind.LED, 0⟩, ⟨ComponentKind.LED, 1⟩, ⟨ComponentKind.LED, 2⟩]⟩,
          ⟨"1", MockDemoBoardBackend,
            [⟨ComponentKind.LED, 0⟩, ⟨ComponentKind.LED, 1⟩, ⟨ComponentKind.LED, 2⟩]⟩,
          ⟨"2", MockDemoBoardBackend,
            [⟨ComponentKind.LED, 0⟩, ⟨ComponentKind.LED, 1⟩, ⟨ComponentKind.LED, 2⟩]⟩] ∧
      List.map (fun (b : DemoBoardData) => b.leds.length)
          [⟨"0", MockDemoBoardBackend,
            [⟨ComponentKind.LED, 0⟩, ⟨ComponentKind.LED, 1⟩, ⟨ComponentKind.LED, 2⟩]⟩,
          ⟨"1", MockDemoBoardBackend,
            [⟨ComponentKind.LED, 0⟩, ⟨ComponentKind.LED, 1⟩, ⟨ComponentKind.LED, 2⟩]⟩,
          ⟨"2", MockDemoBoardBackend,
            [⟨ComponentKind.LED, 0⟩, ⟨ComponentKind.LED, 1⟩, ⟨ComponentKind.LED, 2⟩]⟩] =
        List.map (fun (b : DemoBoardData) => b.leds.length)
          [⟨"0", MockDemoBoardBackend,
            [⟨ComponentKind.LED, 0⟩, ⟨ComponentKind.LED, 1⟩, ⟨ComponentKind.LED, 2⟩]⟩,
          ⟨"1", MockDemoBoardBackend,
            [⟨ComponentKind.LED, 0⟩, ⟨ComponentKind.LED, 1⟩, ⟨ComponentKind.LED, 2⟩]⟩,
          ⟨"2", MockDemoBoardBackend,
            [⟨ComponentKind.LED, 0⟩, ⟨ComponentKind.LED, 1⟩, ⟨ComponentKind.LED, 2⟩]⟩]) :=
  ⟨by decide, discover_deterministic MockEnvironment _ _ (by decide) (by decide)⟩

/-- C6, counterexample to the claim as stated: the test file's mock backend
does not return the last-set value — setting an LED to `false` through the
component and reading it back yields `true`, not `false`. -/
theorem led_roundtrip_counterexample :
    ¬ (LED.get_state mockLEDImpl
        (LED.set_state mockLEDImpl () "00000" 0 false) "00000" 0 = false) := by
  decide

/-- C6 as amended: the mock backend's `get_led_state` returns `true`
unconditionally, so the set-then-get round-trip through the forwarding LED
component holds exactly for the value `true` (the only value the test
exercises): setting `true` and reading back yields `true`. -/
theorem led_roundtrip_true (s : Unit) (board : String) (identifier : Nat) :
    LED.get_state mockLEDImpl
      (LED.set_state mockLEDImpl s board identifier true) board identifier = true :=
  rfl

/-! ## Claims C9–C10: the snippet extractor

The refinement argument: `extract.go` in the `some` state writes exactly the
accumulated prefix plus the lines up to the next closing delimiter, and in
the `none` state produces one write per checked block of `mdBlocks`. -/

theorem extract_go_some (ls : List String) (fmt : PythonMarkdownFormat) (acc : String)
    (w : SnippetWriter) :
    extract.go ls (some (fmt, acc)) w =
      match ls.dropWhile (fun x => !strStartsWith x "```") with
      | [] => w
      | _ :: rest =>
          extract.go rest none
            (if fmt.is_unchecked then w
             else w.write
               (acc ++ concatLines (ls.takeWhile (fun x => !strStartsWith x "```")))) := by
  induction ls generalizing acc with
  | nil => rfl
  | cons l ls ih =>
      cases he : strStartsWith l "```" with
      | true =>
          simp only [extract.go, PythonMarkdownFormat.is_end, he, if_true,
            List.dropWhile_cons, List.takeWhile_cons, Bool.not_true, Bool.false_eq_true,
            if_false, concatLines, List.foldr_nil, String.append_empty]
      | false =>
          simp only [extract.go, PythonMarkdownFormat.is_end, he, Bool.false_eq_true,
            if_false, List.dropWhile_cons, List.takeWhile_cons, Bool.not_false, if_true]
          rw [ih (acc ++ l)]
          cases hd : ls.dropWhile (fun x => !strStartsWith x "```") with
          | nil => rfl
          | cons hd0 rest =>
              by_cases hu : fmt.is_unchecked
              · simp [hu]
              · simp [hu, concatLines, String.append_assoc]

theorem extract_go_some_stop (ls : List String) (fmt : PythonMarkdownFormat) (acc : String)
    (w : SnippetWriter) (h : ls.dropWhile (fun x => !strStartsWith x "```") = []) :
    extract.go ls (some (fmt, acc)) w = w := by
  rw [extract_go_some, h]

theorem extract_go_some_found (ls : List String) (fmt : PythonMarkdownFormat) (acc : String)
    (w : SnippetWriter) (hd0 : String) (rest : List String)
    (h : ls.dropWhile (fun x => !strStartsWith x "```") = hd0 :: rest) :
    extract.go ls (some (fmt, acc)) w =
      extract.go rest none
        (if fmt.is_unchecked then w
         else w.write
           (acc ++ concatLines (ls.takeWhile (fun x => !strStartsWith x "```")))) := by
  rw [extract_go_some, h]

theorem extract_go_none (n : Nat) : ∀ ls : List String, ls.length ≤ n → ∀ w : SnippetWriter,
    extract.go ls none w = writeAll w (checkedSnippets ls) := by
  induction n with
  | zero =>
      intro ls h w
      rw [List.length_eq_zero.mp (Nat.le_zero.mp h)]
      simp [extract.go, checkedSnippets, mdBlocks, writeAll]
  | succ n ih =>
      intro ls h w
      cases ls with
      | nil => simp [extract.go, checkedSnippets, mdBlocks, writeAll]
      | cons l ls =>
          cases hs : strStartsWith l "```python" with
          | false =>
              have hgo : extract.go (l :: ls) none w = extract.go ls none w := by
                simp [extract.go, PythonMarkdownFormat.attempt_start,
                  PythonMarkdownFormat.is_start, hs]
              have hmd : mdBlocks (l :: ls) = mdBlocks ls := by
                simp [mdBlocks, hs]
              rw [hgo, checkedSnippets, hmd, ← checkedSnippets,
                ih ls (Nat.le_of_succ_le_succ h) w]
          | true =>
              have hgo : extract.go (l :: ls) none w =
                  extract.go ls (some (⟨l⟩, "")) w := by
                simp [extract.go, PythonMarkdownFormat.attempt_start,
                  PythonMarkdownFormat.is_start, hs]
              cases hd : ls.dropWhile (fun x => !strStartsWith x "```") with
              | nil =>
                  have hmd : mdBlocks (l :: ls) = [] := by
                    simp [mdBlocks, hs, hd]
                  rw [hgo, extract_go_some_stop ls ⟨l⟩ "" w hd]
                  simp [checkedSnippets, hmd, writeAll]
              | cons hd0 rest =>
                  have hrest : rest.length ≤ n := by
                    have hsub : List.Sublist
                        (ls.dropWhile (fun x => !strStartsWith x "```")) ls :=
                      List.dropWhile_sublist _
                    rw [hd] at hsub
                    have := hsub.length_le
                    simp only [List.length_cons] at this
                    have hls : ls.length ≤ n := Nat.le_of_succ_le_succ h
                    omega
                  have hmd : mdBlocks (l :: ls) =
                      (l, ls.takeWhile (fun x => !strStartsWith x "```")) ::
                        mdBlocks rest := by
                    simp [mdBlocks, hs, hd]
                  rw [hgo, extract_go_some_found ls ⟨l⟩ "" w hd0 rest hd,
                    String.empty_append]
                  by_cases hu : strContainsSub l "unchecked"
                  · have hu' : PythonMarkdownFormat.is_unchecked ⟨l⟩ = true := by
                      simp [PythonMarkdownFormat.is_unchecked, hu]
                    rw [hu', if_pos rfl, ih rest hrest w]
                    simp [checkedSnippets, hmd, blockChecked, hu]
                  · have hu' : PythonMarkdownFormat.is_unchecked ⟨l⟩ = false := by
                      simp [PythonMarkdownFormat.is_unchecked, hu]
                    rw [hu']
                    simp only [Bool.false_eq_true, if_false]
                    rw [ih rest hrest
                      (w.write (concatLines (ls.takeWhile (fun x => !strStartsWith x "```"))))]
                    simp [checkedSnippets, hmd, blockChecked, hu, writeAll]

theorem writeAll_written (cs : List String) : ∀ w : SnippetWriter,
    (writeAll w cs).written =
      w.written ++ List.enumFrom w.next_num (cs.map (fun c => noqaHeader ++ c)) := by
  induction cs with
  | nil => intro w; simp [writeAll]
  | cons c cs ih =>
      intro w
      rw [writeAll, List.foldl_cons, ← writeAll, ih (w.write c)]
      simp [SnippetWriter.write, List.enumFrom]

theorem writeAll_next_num (cs : List String) : ∀ w : SnippetWriter,
    (writeAll w cs).next_num = w.next_num + cs.length := by
  induction cs with
  | nil => intro w; simp [writeAll]
  | cons c cs ih =>
      intro w
      rw [writeAll, List.foldl_cons, ← writeAll, ih (w.write c)]
      simp [SnippetWriter.write]
      omega

/-- C9: every snippet the extractor writes is exactly the concatenation, in
file order, of the lines strictly between a line starting with
```` ```python ```` and the next subsequent line starting with ```` ``` ````
(prefixed by the writer's fixed noqa header); neither delimiter line is ever
part of the content. -/
theorem extract_snippets_are_block_interiors (input : List String) :
    (runExtract input).written.map Prod.snd =
      ((mdBlocks input).filter blockChecked).map
        (fun b => noqaHeader ++ concatLines b.2) := by
  rw [runExtract, extract, extract_go_none input.length input le_rfl, writeAll_written]
  simp [checkedSnippets, List.map_map]

/-- C10: a block whose opening ```` ```python ```` line contains
`"unchecked"` is never written, and skipping it does not perturb the
sequential numbering (0, 1, 2, … exactly over the checked blocks) or the
content of the snippets written for the remaining blocks. -/
theorem extract_skips_unchecked_sequential (input : List String) :
    (runExtract input).written =
      List.enumFrom 0 (((mdBlocks input).filter blockChecked).map
        (fun b => noqaHeader ++ concatLines b.2)) ∧
    (runExtract input).next_num = ((mdBlocks input).filter blockChecked).length := by
  constructor
  · rw [runExtract, extract, extract_go_none input.length input le_rfl, writeAll_written]
    simp [checkedSnippets, List.map_map]
    rfl
  · rw [runExtract, extract, extract_go_none input.length input le_rfl, writeAll_next_num]
    simp [checkedSnippets]

end J5
